import Mathlib

/-!
# Verification of the document-access and identity-normalization layer

Shallow embedding of `src/main.py` (Beauty Dropship backend): the identity
codec (`to_str_id`, ObjectId parsing), the document-store gateway
(`create_document`, `get_documents`, `find_one`, `count_documents` — the
first two live in `database.py`, which is not part of the sources, so they
are modelled from the specification), the resource handlers
(`list_products`, `get_product`, `create_order`, `signup_newsletter`) and
the startup seeder (`seed_products_if_empty`).

Python dictionaries are embedded as association lists with unique-key
update semantics; BSON/JSON values as the inductive `Value`; HTTP outcomes
as `Resp`; the Mongo database handle as `Option Store` (`none` = the
`db is None` state).
-/

set_option autoImplicit false

namespace BeautyDropship

/-- A BSON/JSON value as it appears in the documents handled by `main.py`:
strings, numbers (prices, modelled as rationals), booleans, ObjectIds
(carried by their 24-hex-character string form), Python `None`, and nested
lists and dictionaries (order payloads). -/
inductive Value where
  | str (s : String)
  | num (q : ℚ)
  | bool (b : Bool)
  | oid (hex : String)
  | nil
  | int (n : ℤ)
  | list (vs : List Value)
  | dict (fields : List (String × Value))

/-- Hand-rolled decidable equality for `Value` (it is a nested inductive). -/
def Value.beq : Value → Value → Bool
  | .str a, .str b => a = b
  | .num a, .num b => a = b
  | .bool a, .bool b => a = b
  | .oid a, .oid b => a = b
  | .nil, .nil => true
  | .int a, .int b => a = b
  | .list a, .list b => listBeq a b
  | .dict a, .dict b => fieldsBeq a b
  | _, _ => false
where
  listBeq : List Value → List Value → Bool
    | [], [] => true
    | x :: xs, y :: ys => Value.beq x y && listBeq xs ys
    | _, _ => false
  fieldsBeq : List (String × Value) → List (String × Value) → Bool
    | [], [] => true
    | (k, x) :: xs, (l, y) :: ys => k = l && Value.beq x y && fieldsBeq xs ys
    | _, _ => false

mutual

theorem Value.beq_eq : ∀ a b : Value, Value.beq a b = true → a = b
  | .str _, .str _, h => by simpa [Value.beq] using congrArg Value.str (by simpa [Value.beq] using h)
  | .num _, .num _, h => congrArg Value.num (by simpa [Value.beq] using h)
  | .bool _, .bool _, h => congrArg Value.bool (by simpa [Value.beq] using h)
  | .oid _, .oid _, h => congrArg Value.oid (by simpa [Value.beq] using h)
  | .nil, .nil, _ => rfl
  | .int _, .int _, h => congrArg Value.int (by simpa [Value.beq] using h)
  | .list a, .list b, h => congrArg Value.list (Value.beq_list_eq a b (by simpa [Value.beq] using h))
  | .dict a, .dict b, h => congrArg Value.dict (Value.beq_fields_eq a b (by simpa [Value.beq] using h))

theorem Value.beq_list_eq : ∀ a b : List Value, Value.beq.listBeq a b = true → a = b
  | [], [], _ => rfl
  | x :: xs, y :: ys, h => by
    have h' := h
    simp only [Value.beq.listBeq, Bool.and_eq_true] at h'
    exact congrArg₂ List.cons (Value.beq_eq x y h'.1) (Value.beq_list_eq xs ys h'.2)

theorem Value.beq_fields_eq : ∀ a b : List (String × Value), Value.beq.fieldsBeq a b = true → a = b
  | [], [], _ => rfl
  | (k, x) :: xs, (l, y) :: ys, h => by
    have h' := h
    simp only [Value.beq.fieldsBeq, Bool.and_eq_true, decide_eq_true_eq] at h'
    have hk : k = l := h'.1.1
    have hv : x = y := Value.beq_eq x y h'.1.2
    have ht : xs = ys := Value.beq_fields_eq xs ys h'.2
    simp [hk, hv, ht]

end

mutual

theorem Value.beq_refl : ∀ a : Value, Value.beq a a = true
  | .str _ => by simp [Value.beq]
  | .num _ => by simp [Value.beq]
  | .bool _ => by simp [Value.beq]
  | .oid _ => by simp [Value.beq]
  | .nil => by simp [Value.beq]
  | .int _ => by simp [Value.beq]
  | .list a => by simp [Value.beq, Value.beq_list_refl a]
  | .dict a => by simp [Value.beq, Value.beq_fields_refl a]

theorem Value.beq_list_refl : ∀ a : List Value, Value.beq.listBeq a a = true
  | [] => rfl
  | x :: xs => by simp [Value.beq.listBeq, Value.beq_refl x, Value.beq_list_refl xs]

theorem Value.beq_fields_refl : ∀ a : List (String × Value), Value.beq.fieldsBeq a a = true
  | [] => rfl
  | (k, x) :: xs => by simp [Value.beq.fieldsBeq, Value.beq_refl x, Value.beq_fields_refl xs]

end

instance : DecidableEq Value := fun a b =>
  if h : Value.beq a b = true then
    .isTrue (Value.beq_eq a b h)
  else
    .isFalse (fun hab => h (hab ▸ Value.beq_refl a))

/-- A Python dictionary / BSON document: an association list of fields.
Python dictionaries have unique keys; the operations below preserve that. -/
abbrev Doc : Type := List (String × Value)

/-- `k in d` / `d[k]` lookup of a Python dict. -/
def lookupBy {β : Type} (k : String) : List (String × β) → Option β
  | [] => none
  | (k', v) :: rest => if k' = k then some v else lookupBy k rest

/-- `d.pop(k)`'s removal effect on a Python dict. -/
def eraseBy {β : Type} (k : String) : List (String × β) → List (String × β)
  | [] => []
  | (k', v) :: rest => if k' = k then eraseBy k rest else (k', v) :: eraseBy k rest

/-- `d[k] = v` on a Python dict: overwrite in place if present, append if new. -/
def setBy {β : Type} (k : String) (v : β) : List (String × β) → List (String × β)
  | [] => [(k, v)]
  | (k', v') :: rest => if k' = k then (k, v) :: rest else (k', v') :: setBy k v rest

/-- Python `str()` as applied to document values; on an ObjectId it yields
the 24-character hex string (the only case `main.py` exercises). -/
def pyStr : Value → String
  | .str s => s
  | .num q => toString q
  | .bool b => if b then "True" else "False"
  | .oid hex => hex
  | .nil => "None"
  | .int n => toString n
  | .list _ => "[...]"
  | .dict _ => "\x7b...\x7d"

/-- `to_str_id` from `main.py` lines 23-30: on a falsy (empty) document,
return it unchanged; otherwise copy it and, when a native `_id` field is
present, pop it and store its string form under the key `id`. -/
def to_str_id (doc : Doc) : Doc :=
  if doc = [] then doc
  else
    match lookupBy "_id" doc with
    | none => doc
    | some v => setBy "id" (Value.str (pyStr v)) (eraseBy "_id" doc)

/-- `to_str_id` lifted to an optional document (`None` is also falsy in
Python, so it is returned unchanged). -/
def to_str_id_opt : Option Doc → Option Doc
  | none => none
  | some d => some (to_str_id d)

/-- `bson.ObjectId` accepts a string argument exactly when it is 24
hexadecimal characters (upper or lower case). -/
def isHexChar (c : Char) : Bool :=
  (('0' ≤ c && c ≤ '9') || ('a' ≤ c && c ≤ 'f') || ('A' ≤ c && c ≤ 'F'))

/-- Structural validity of an external identifier string, as enforced by the
`bson.ObjectId` constructor called in `get_product`. -/
def isValidObjectId (s : String) : Bool :=
  s.length = 24 && s.data.all isHexChar

/-- The message of the `bson.errors.InvalidId` exception raised by
`ObjectId` on a malformed string (modelled up to exact punctuation; only
its distinctness from other boundary messages matters). -/
def invalidIdMsg (s : String) : String :=
  s ++ " is not a valid ObjectId, it must be a 12-byte input or a 24-character hex string"

/-- The store: the Mongo database contents, plus the generator state for
fresh ObjectIds. Collections live in an association list keyed by name. -/
structure Store where
  collections : List (String × List Doc)
  nextId : Nat

instance : DecidableEq Store := fun a b => by
  cases a; cases b
  exact decidable_of_iff _ (Store.mk.injEq _ _ _ _).to_iff.symm

/-- The documents of collection `c` (`db[c]`); a collection never written
to is empty. -/
def collOf (st : Store) (c : String) : List Doc :=
  (lookupBy c st.collections).getD []

/-- The string form of the `n`-th ObjectId the store hands out: a 24-digit
hex string (zero-padded). -/
def idString (n : Nat) : String :=
  let ds := Nat.toDigits 16 n
  String.mk (List.replicate (24 - ds.length) '0' ++ ds)

/-- Mongo equality-filter matching: every field of the filter is present in
the document with exactly that value. -/
def matchesFilter (f : List (String × Value)) (d : Doc) : Bool :=
  f.all (fun kv => decide (lookupBy kv.1 d = some kv.2))

/-- `db[c].find_one(f)` (pymongo): the first document of the collection
matching the filter, if any. -/
def find_one (c : String) (f : List (String × Value)) (st : Store) : Option Doc :=
  (collOf st c).find? (matchesFilter f)

/-- `db[c].count_documents(f)` (pymongo): number of matching documents. -/
def count_documents (c : String) (f : List (String × Value)) (st : Store) : Nat :=
  ((collOf st c).filter (matchesFilter f)).length

/-- Modelled from the spec: `create_document` lives in `database.py`, which
is absent from the sources. §4.2: `insert(collection, document) ->
externalId` assigns a new identity, persists the document, and returns its
external id; like Mongo's `insert_one`, the stored document carries the new
`_id` and is appended to the collection. -/
def create_document (c : String) (doc : Doc) (st : Store) : String × Store :=
  let i := idString st.nextId
  (i, { collections := setBy c (collOf st c ++ [("_id", Value.oid i) :: doc]) st.collections,
        nextId := st.nextId + 1 })

/-- Modelled from the spec: `get_documents` lives in `database.py`, which
is absent from the sources. §4.2: `list(collection, filter, limit)` returns
all matching documents, or up to `limit` when one is given. -/
def get_documents (c : String) (f : List (String × Value)) (lim : Option Nat) (st : Store) : List Doc :=
  let r := (collOf st c).filter (matchesFilter f)
  match lim with
  | none => r
  | some n => r.take n

/-- An HTTP handler outcome: a successful JSON payload, or an
`HTTPException` with a status code and a detail message. -/
inductive Resp (α : Type) where
  | ok (a : α)
  | httpError (status : Nat) (detail : String)

instance {α : Type} [DecidableEq α] : DecidableEq (Resp α) := fun a b => by
  cases a <;> cases b
  case ok.ok x y => exact decidable_of_iff _ (Resp.ok.injEq x y).to_iff.symm
  case httpError.httpError s d s' d' => exact decidable_of_iff _ (Resp.httpError.injEq s d s' d').to_iff.symm
  all_goals exact .isFalse (by intro h; cases h)

/-- The HTTP status of an outcome, when it is an error. -/
def respStatus {α : Type} : Resp α → Option Nat
  | .ok _ => none
  | .httpError s _ => some s

/-- The detail message of an outcome, when it is an error. -/
def respDetail {α : Type} : Resp α → Option String
  | .ok _ => none
  | .httpError _ d => some d

/-- `list_products` from `main.py` lines 65-71: with no database the
gateway raises (modelled from the spec: `StoreUnavailable`) and the handler
maps the exception to a 500; otherwise all product documents are returned
(`limit=None`), each normalized through `to_str_id`. -/
def list_products (db : Option Store) : Resp (List Doc) :=
  match db with
  | none => .httpError 500 "Database not available"
  | some st => .ok ((get_documents "product" [] none st).map to_str_id)

/-- `get_product` from `main.py` lines 73-85: `db is None` raises a plain
exception, caught by the blanket handler as a 400; a malformed id makes
`ObjectId` raise `InvalidId`, also caught as a 400; a missing document is a
404 `HTTPException` (re-raised unchanged); otherwise the document is
normalized and returned. ObjectId equality is case-insensitive on the hex
string, hence the `toLower`. -/
def get_product (db : Option Store) (product_id : String) : Resp Doc :=
  match db with
  | none => .httpError 400 "Database not available"
  | some st =>
    if isValidObjectId product_id then
      match find_one "product" [("_id", Value.oid product_id.toLower)] st with
      | none => .httpError 404 "Product not found"
      | some doc => .ok (to_str_id doc)
    else .httpError 400 (invalidIdMsg product_id)

/-- An order item payload: `OrderItem` from `main.py` lines 35-37. The
pydantic constraint `Field(ge=1)` on `quantity` is checked by
`orderItemValid` below, before the handler runs. -/
structure OrderItem where
  product_id : String
  quantity : ℤ

instance : DecidableEq OrderItem := fun a b => by
  cases a; cases b
  exact decidable_of_iff _ (OrderItem.mk.injEq _ _ _ _).to_iff.symm

/-- An order payload: `Order` from `main.py` lines 39-46. -/
structure OrderPayload where
  name : String
  email : String
  address : String
  city : String
  country : String
  items : List OrderItem
  notes : Option String

instance : DecidableEq OrderPayload := fun a b => by
  cases a; cases b
  exact decidable_of_iff _ (OrderPayload.mk.injEq _ _ _ _ _ _ _ _ _ _ _ _ _ _).to_iff.symm

/-- Split a character list at every occurrence of `c` (the pieces, in
order; an empty input yields one empty piece, like Python's `split`). -/
def splitChars (c : Char) : List Char → List (List Char)
  | [] => [[]]
  | x :: xs =>
    match splitChars c xs with
    | [] => if x = c then [[], []] else [[x]]
    | y :: ys => if x = c then [] :: y :: ys else (x :: y) :: ys

/-- Syntactic validity of an email address, as enforced by pydantic's
`EmailStr` (external library; modelled as: exactly one `@`, non-empty
local part, non-empty domain containing a dot). -/
def isEmail (s : String) : Bool :=
  match splitChars '@' s.data with
  | [l, d] => !l.isEmpty && !d.isEmpty && d.contains '.'
  | _ => false

/-- The pydantic validation of one `OrderItem`: `quantity: int = Field(ge=1)`. -/
def orderItemValid (it : OrderItem) : Bool :=
  decide (1 ≤ it.quantity)

/-- The pydantic validation of an `Order` payload: `email: EmailStr` and
every item's `quantity ≥ 1`. It runs before the handler body. -/
def orderValid (o : OrderPayload) : Bool :=
  isEmail o.email && o.items.all orderItemValid

/-- `order.model_dump()` of an `OrderItem`. -/
def orderItemDump (it : OrderItem) : List (String × Value) :=
  [("product_id", .str it.product_id), ("quantity", .int it.quantity)]

/-- `order.model_dump()` of an `Order` payload. -/
def orderDump (o : OrderPayload) : Doc :=
  [("name", .str o.name), ("email", .str o.email), ("address", .str o.address),
   ("city", .str o.city), ("country", .str o.country),
   ("items", .list (o.items.map (fun it => .dict (orderItemDump it)))),
   ("notes", match o.notes with | none => .nil | some s => .str s)]

/-- The `create_order` handler body from `main.py` lines 90-97: dump the
validated payload, insert it, return `{id, status: "received"}`; a gateway
failure (modelled from the spec: `StoreUnavailable` when `db is None`) is
caught as a 500. -/
def create_order (db : Option Store) (o : OrderPayload) : Option Store × Resp (String × String) :=
  match db with
  | none => (none, .httpError 500 "Database not available")
  | some st =>
    let r := create_document "order" (orderDump o) st
    (some r.2, .ok (r.1, "received"))

/-- The `POST /api/orders` endpoint: pydantic validates the payload before
`create_order` runs; FastAPI reports a validation failure as a 422 without
entering the handler, so the store is untouched. -/
def create_order_endpoint (db : Option Store) (o : OrderPayload) : Option Store × Resp (String × String) :=
  if orderValid o then create_order db o
  else (db, .httpError 422 "value_error: payload validation failed")

/-- The body of a successful newsletter response: `{id, status:
"subscribed"}` or `{status: "already_subscribed"}`. -/
inductive SignupOk where
  | subscribed (id : String)
  | already_subscribed

instance : DecidableEq SignupOk := fun a b => by
  cases a <;> cases b
  case subscribed.subscribed x y => exact decidable_of_iff _ (SignupOk.subscribed.injEq x y).to_iff.symm
  case already_subscribed.already_subscribed => exact .isTrue rfl
  all_goals exact .isFalse (by intro h; cases h)

/-- `signup_newsletter` from `main.py` lines 99-111: `db is None` raises,
caught by the blanket handler as a 500; an existing document with the same
`email` string short-circuits to `already_subscribed` with no write;
otherwise `payload.model_dump()` (`{email}`) is inserted and the new id
returned with status `subscribed`. -/
def signup_newsletter (db : Option Store) (email : String) : Option Store × Resp SignupOk :=
  match db with
  | none => (none, .httpError 500 "Database not available")
  | some st =>
    match find_one "newsletter" [("email", Value.str email)] st with
    | some _ => (some st, .ok .already_subscribed)
    | none =>
      let r := create_document "newsletter" [("email", Value.str email)] st
      (some r.2, .ok (.subscribed r.1))

/-- The fixed baseline product set seeded at startup: `sample_products`
from `main.py` lines 161-198, in the order listed there. -/
def sample_products : List Doc :=
  [[("title", .str "Aurora Glass Perfume"),
    ("description", .str "A luminous, floral scent with notes of iris and pear. Minimal bottle, maximal compliments."),
    ("price", .num 59),
    ("category", .str "fragrance"),
    ("in_stock", .bool true),
    ("image", .str "https://images.unsplash.com/photo-1523297730390-9f2d9e9a8f49?q=80&w=1200&auto=format&fit=crop"),
    ("badge", .str "Bestseller")],
   [("title", .str "Velvet Matte Lipstick"),
    ("description", .str "Feather-light, full-impact color. Long-wear without the dry feel."),
    ("price", .num 21),
    ("category", .str "makeup"),
    ("in_stock", .bool true),
    ("image", .str "https://images.unsplash.com/photo-1585386959984-a41552231658?q=80&w=1200&auto=format&fit=crop"),
    ("badge", .str "New")],
   [("title", .str "Silk Glow Highlighter"),
    ("description", .str "Ultra-fine shimmer for a lit-from-within finish."),
    ("price", .num 28),
    ("category", .str "makeup"),
    ("in_stock", .bool true),
    ("image", .str "https://images.unsplash.com/photo-1596464716121-d9f0d2f6f9b0?q=80&w=1200&auto=format&fit=crop"),
    ("badge", .str "Limited")],
   [("title", .str "Cloud Cleanser"),
    ("description", .str "pH-balanced gel cleanser that leaves skin soft and fresh."),
    ("price", .num 19),
    ("category", .str "skincare"),
    ("in_stock", .bool true),
    ("image", .str "https://images.unsplash.com/photo-1598440947619-2c35fc9aa808?q=80&w=1200&auto=format&fit=crop"),
    ("badge", .str "Award-winning")]]

/-- The seeding loop of `main.py` lines 199-200: one `create_document`
call per sample product, in list order. -/
def insertAll (ps : List Doc) (st : Store) : Store :=
  ps.foldl (fun s p => (create_document "product" p s).2) st

/-- `seed_products_if_empty` from `main.py` lines 153-203 on the path where
no exception occurs: no-op when `db is None`; no-op when the product count
is positive; otherwise insert the four sample products in order. -/
def seed_products_if_empty (db : Option Store) : Option Store :=
  match db with
  | none => none
  | some st =>
    if 0 < count_documents "product" [] st then some st
    else some (insertAll sample_products st)

/-- The product count an observer of the store sees (0 when the store is
unavailable). -/
def productCount : Option Store → Nat
  | none => 0
  | some st => (collOf st "product").length

/-- The seeding loop with a failure oracle: `insOk i` says whether the
`i`-th `create_document` call succeeds; a failing call raises, leaving the
store as mutated so far (`Except.error`). -/
def seedInsertLoop (insOk : Nat → Bool) : Nat → List Doc → Store → Except Store Store
  | _, [], st => .ok st
  | i, p :: ps, st =>
    if insOk i then seedInsertLoop insOk (i + 1) ps (create_document "product" p st).2
    else .error st

/-- The body of `seed_products_if_empty` (the code inside its `try`), with
failure oracles: `countOk` says whether `count_documents` succeeds, `insOk`
governs each insert. An `Except.error` is an exception escaping the body,
carrying the store state at the point it was raised. -/
def seedBody (countOk : Bool) (insOk : Nat → Bool) (st : Store) : Except Store Store :=
  if countOk then
    if 0 < count_documents "product" [] st then .ok st
    else seedInsertLoop insOk 0 sample_products st
  else .error st

/-- `seed_products_if_empty` with failure oracles: `db is None` returns
before the store is touched, and the blanket `except Exception: pass`
turns any exception from the body into a normal return. The outer
`Except String` records whether an exception propagates out of the seeder
to the caller (the startup machinery). -/
def seed_with_failures (countOk : Bool) (insOk : Nat → Bool) (db : Option Store) :
    Except String (Option Store) :=
  match db with
  | none => .ok none
  | some st =>
    match seedBody countOk insOk st with
    | .ok st2 => .ok (some st2)
    | .error st2 => .ok (some st2)

/-- A heap of Python dict objects; an address is an index. Used to state
that `to_str_id` mutates no existing dict (it works on `{**doc}`). -/
structure Heap where
  cells : List Doc

instance : DecidableEq Heap := fun a b => by
  cases a; cases b
  exact decidable_of_iff _ (Heap.mk.injEq _ _).to_iff.symm

/-- Read a list cell by index. -/
def cellsGet : List Doc → Nat → Option Doc
  | [], _ => none
  | x :: _, 0 => some x
  | _ :: r, n + 1 => cellsGet r n

/-- Overwrite a list cell by index (no-op when out of range). -/
def cellsSet : List Doc → Nat → Doc → List Doc
  | [], _, _ => []
  | _ :: r, 0, d => d :: r
  | x :: r, n + 1, d => x :: cellsSet r n d

/-- Read the dict object at an address (`none`: dangling / Python `None`). -/
def heapGet (h : Heap) (a : Nat) : Option Doc :=
  cellsGet h.cells a

/-- Overwrite the dict object at an address. -/
def heapSet (h : Heap) (a : Nat) (d : Doc) : Heap :=
  ⟨cellsSet h.cells a d⟩

/-- Allocate a new dict object; returns the heap and the fresh address. -/
def heapAlloc (h : Heap) (d : Doc) : Heap × Nat :=
  (⟨h.cells ++ [d]⟩, h.cells.length)

/-- `to_str_id` with the Python object model explicit: the argument is an
address; a falsy argument (`None`, dangling, or the empty dict) is returned
as is; otherwise `d = {**doc}` allocates a fresh dict, and `d.pop("_id")` /
`d["id"] = ...` mutate only that fresh dict. Returns the final heap and
the address of the result. -/
def to_str_id_heap (h : Heap) (a : Nat) : Heap × Nat :=
  match heapGet h a with
  | none => (h, a)
  | some doc =>
    if doc = [] then (h, a)
    else
      let r := heapAlloc h doc
      match lookupBy "_id" doc with
      | none => r
      | some v =>
        let h2 := heapSet r.1 r.2 (eraseBy "_id" doc)
        let h3 := heapSet h2 r.2 (setBy "id" (Value.str (pyStr v)) (eraseBy "_id" doc))
        (h3, r.2)

/-- The documents the seeding loop produces from `ps` when the next fresh
identifier index is `n`: each document prefixed with its assigned `_id`,
ids consecutive, order preserved. -/
def seededDocs (n : Nat) : List Doc → List Doc
  | [] => []
  | p :: ps => (("_id", Value.oid (idString n)) :: p) :: seededDocs (n + 1) ps

/-- The payload of a successful response (`[]` on an error). -/
def okList {α : Type} : Resp (List α) → List α
  | .ok l => l
  | .httpError _ _ => []

/-- A store with no documents at all (a fresh database). -/
def emptyStore : Store := ⟨[], 0⟩

/-! ## Helper lemmas about the dictionary and store primitives -/

theorem lookupBy_eraseBy_self {β : Type} (k : String) :
    ∀ l : List (String × β), lookupBy k (eraseBy k l) = none
  | [] => rfl
  | (k', v) :: r => by
    by_cases h : k' = k
    · simp [eraseBy, h, lookupBy_eraseBy_self k r]
    · simp [eraseBy, h, lookupBy, lookupBy_eraseBy_self k r]

theorem lookupBy_eraseBy_ne {β : Type} {k k2 : String} (h : k2 ≠ k) :
    ∀ l : List (String × β), lookupBy k (eraseBy k2 l) = lookupBy k l
  | [] => rfl
  | (k', v) :: r => by
    by_cases h1 : k' = k2
    · subst h1
      simp [eraseBy, lookupBy, h, lookupBy_eraseBy_ne h r]
    · by_cases h2 : k' = k
      · have h3 : ¬k = k2 := fun hk => h hk.symm
        simp [eraseBy, h1, lookupBy, h2, h3]
      · simp [eraseBy, h1, lookupBy, h2, lookupBy_eraseBy_ne h r]

theorem lookupBy_setBy_self {β : Type} (k : String) (v : β) :
    ∀ l : List (String × β), lookupBy k (setBy k v l) = some v
  | [] => by simp [setBy, lookupBy]
  | (k', v') :: r => by
    by_cases h : k' = k
    · simp [setBy, h, lookupBy]
    · simp [setBy, h, lookupBy, lookupBy_setBy_self k v r]

theorem lookupBy_setBy_ne {β : Type} {k k2 : String} (h : k2 ≠ k) (v : β) :
    ∀ l : List (String × β), lookupBy k (setBy k2 v l) = lookupBy k l
  | [] => by simp [setBy, lookupBy, h]
  | (k', v') :: r => by
    by_cases h1 : k' = k2
    · subst h1
      simp [setBy, lookupBy, h, lookupBy_setBy_ne h v r]
    · by_cases h2 : k' = k
      · have h3 : ¬k = k2 := fun hk => h hk.symm
        simp [setBy, h1, lookupBy, h2, h3]
      · simp [setBy, h1, lookupBy, h2, lookupBy_setBy_ne h v r]

theorem collOf_create_self (c : String) (p : Doc) (st : Store) :
    collOf (create_document c p st).2 c =
      collOf st c ++ [("_id", Value.oid (idString st.nextId)) :: p] := by
  simp [create_document, collOf, lookupBy_setBy_self]

theorem nextId_create (c : String) (p : Doc) (st : Store) :
    (create_document c p st).2.nextId = st.nextId + 1 := rfl

theorem fst_create (c : String) (p : Doc) (st : Store) :
    (create_document c p st).1 = idString st.nextId := rfl

theorem matchesFilter_nil (d : Doc) : matchesFilter [] d = true := rfl

theorem count_documents_eq_length (c : String) (st : Store) :
    count_documents c [] st = (collOf st c).length := by
  have hm : matchesFilter ([] : List (String × Value)) = fun _ => true :=
    funext fun d => rfl
  simp [count_documents, hm]

theorem count_zero_collOf_nil {c : String} {st : Store}
    (h : count_documents c [] st = 0) : collOf st c = [] := by
  rw [count_documents_eq_length] at h
  exact List.length_eq_zero.mp h

theorem collOf_insertAll (ps : List Doc) (st : Store) :
    collOf (insertAll ps st) "product" = collOf st "product" ++ seededDocs st.nextId ps ∧
    (insertAll ps st).nextId = st.nextId + ps.length := by
  induction ps generalizing st with
  | nil => simp [insertAll, seededDocs]
  | cons p ps ih =>
    have h0 := collOf_create_self "product" p st
    have h1 := ih (create_document "product" p st).2
    constructor
    · calc collOf (insertAll (p :: ps) st) "product"
          = collOf (insertAll ps (create_document "product" p st).2) "product" := rfl
        _ = collOf (create_document "product" p st).2 "product"
              ++ seededDocs (create_document "product" p st).2.nextId ps := h1.1
        _ = (collOf st "product" ++ [("_id", Value.oid (idString st.nextId)) :: p])
              ++ seededDocs (st.nextId + 1) ps := by rw [h0, nextId_create]
        _ = collOf st "product" ++ seededDocs st.nextId (p :: ps) := by
              simp [seededDocs]
    · calc (insertAll (p :: ps) st).nextId
          = (insertAll ps (create_document "product" p st).2).nextId := rfl
        _ = (create_document "product" p st).2.nextId + ps.length := h1.2
        _ = st.nextId + (p :: ps).length := by simp [nextId_create]; omega

theorem seededDocs_length (n : Nat) (ps : List Doc) :
    (seededDocs n ps).length = ps.length := by
  induction ps generalizing n with
  | nil => rfl
  | cons p ps ih => simp [seededDocs, ih]

theorem matchesFilter_email (e : String) (d : Doc) :
    matchesFilter [("email", Value.str e)] d = decide (lookupBy "email" d = some (Value.str e)) := by
  simp [matchesFilter]

theorem matchesFilter_newsletterDoc (e e' : String) (i : String) :
    matchesFilter [("email", Value.str e)] [("_id", Value.oid i), ("email", Value.str e')]
      = decide (e' = e) := by
  simp [matchesFilter, lookupBy]

theorem find_one_create_newsletter (st : Store) (e e' : String)
    (h0 : find_one "newsletter" [("email", Value.str e)] st = none) :
    find_one "newsletter" [("email", Value.str e)]
        (create_document "newsletter" [("email", Value.str e')] st).2 =
      if e' = e
      then some [("_id", Value.oid (idString st.nextId)), ("email", Value.str e')]
      else none := by
  unfold find_one at h0 ⊢
  rw [collOf_create_self, List.find?_append, h0]
  by_cases he : e' = e
  · simp [List.find?, matchesFilter_newsletterDoc, he]
  · simp [List.find?, matchesFilter_newsletterDoc, he]

/-! ## Helper lemmas about the dict heap -/

theorem cellsGet_lt_length {l : List Doc} {a : Nat} {d : Doc}
    (h : cellsGet l a = some d) : a < l.length := by
  induction l generalizing a with
  | nil => simp [cellsGet] at h
  | cons x r ih =>
    cases a with
    | zero => simp
    | succ n => exact Nat.succ_lt_succ (ih h)

theorem cellsGet_append_left {l : List Doc} {a : Nat} (m : List Doc)
    (h : a < l.length) : cellsGet (l ++ m) a = cellsGet l a := by
  induction l generalizing a with
  | nil => simp at h
  | cons x r ih =>
    cases a with
    | zero => rfl
    | succ n => exact ih (Nat.lt_of_succ_lt_succ h)

theorem cellsGet_append_length (l : List Doc) (d : Doc) :
    cellsGet (l ++ [d]) l.length = some d := by
  induction l with
  | nil => rfl
  | cons x r ih => exact ih

theorem cellsSet_length (l : List Doc) (b : Nat) (d : Doc) :
    (cellsSet l b d).length = l.length := by
  induction l generalizing b with
  | nil => rfl
  | cons x r ih =>
    cases b with
    | zero => rfl
    | succ n => simp [cellsSet, ih]

theorem cellsGet_set_ne : ∀ {a b : Nat}, a ≠ b → ∀ (l : List Doc) (d : Doc),
    cellsGet (cellsSet l b d) a = cellsGet l a
  | _, _, _, [], _ => rfl
  | 0, 0, hne, _ :: _, _ => absurd rfl hne
  | Nat.succ _, 0, _, _ :: _, _ => rfl
  | 0, Nat.succ _, _, _ :: _, _ => rfl
  | Nat.succ _, Nat.succ _, hne, _ :: r, d =>
    cellsGet_set_ne (fun hh => hne (congrArg Nat.succ hh)) r d

theorem cellsGet_set_self : ∀ {b : Nat} {l : List Doc}, b < l.length → ∀ d : Doc,
    cellsGet (cellsSet l b d) b = some d
  | _, [], hb, _ => absurd hb (by simp)
  | 0, _ :: _, _, _ => rfl
  | Nat.succ _, _ :: _, hb, d => cellsGet_set_self (Nat.lt_of_succ_lt_succ hb) d

theorem to_str_id_of_id {doc : Doc} {v : Value} (hv : lookupBy "_id" doc = some v) :
    to_str_id doc = setBy "id" (Value.str (pyStr v)) (eraseBy "_id" doc) := by
  have hne : doc ≠ [] := by
    intro h
    rw [h] at hv
    simp [lookupBy] at hv
  simp [to_str_id, hne, hv]

/-! ## The claims -/

/-- C4: `to_str_id` on a document with a native `_id` field removes
`_id`, adds a string field `id` holding its string form, and leaves every
field other than `_id` and `id` unchanged; consequently every document
returned by `list_products` over a store whose product documents all carry
an `_id` has a string `id` and no `_id`. -/
theorem normalize_strips_native_id (doc : Doc) (v : Value)
    (hv : lookupBy "_id" doc = some v) :
    lookupBy "_id" (to_str_id doc) = none ∧
    lookupBy "id" (to_str_id doc) = some (Value.str (pyStr v)) ∧
    (∀ k, k ≠ "_id" → k ≠ "id" → lookupBy k (to_str_id doc) = lookupBy k doc) ∧
    (∀ st : Store, (∀ d ∈ collOf st "product", ∃ w, lookupBy "_id" d = some w) →
      ∀ r ∈ okList (list_products (some st)),
        (∃ s, lookupBy "id" r = some (Value.str s)) ∧ lookupBy "_id" r = none) := by
  have hid : ("id" : String) ≠ "_id" := by decide
  refine ⟨?_, ?_, ?_, ?_⟩
  · rw [to_str_id_of_id hv, lookupBy_setBy_ne hid, lookupBy_eraseBy_self]
  · rw [to_str_id_of_id hv, lookupBy_setBy_self]
  · intro k hk1 hk2
    rw [to_str_id_of_id hv, lookupBy_setBy_ne (fun hh => hk2 hh.symm),
        lookupBy_eraseBy_ne (fun hh => hk1 hh.symm)]
  · intro st hall r hr
    have hm : matchesFilter ([] : List (String × Value)) = fun _ => true :=
      funext fun d => rfl
    simp only [okList, list_products, get_documents, hm, List.filter_true,
      List.mem_map] at hr
    obtain ⟨d, hd, hrd⟩ := hr
    obtain ⟨w, hw⟩ := hall d hd
    subst hrd
    refine ⟨⟨pyStr w, ?_⟩, ?_⟩
    · rw [to_str_id_of_id hw, lookupBy_setBy_self]
    · rw [to_str_id_of_id hw, lookupBy_setBy_ne hid, lookupBy_eraseBy_self]

/-- C4 witness: a concrete document with `_id = ObjectId("ab")` and one
other field. -/
theorem normalize_strips_native_id_witness :
    lookupBy "id" (to_str_id [("_id", Value.oid "ab"), ("x", Value.num 3)])
      = some (Value.str "ab") ∧
    lookupBy "_id" (to_str_id [("_id", Value.oid "ab"), ("x", Value.num 3)]) = none ∧
    lookupBy "x" (to_str_id [("_id", Value.oid "ab"), ("x", Value.num 3)])
      = some (Value.num 3) :=
  ⟨(normalize_strips_native_id [("_id", Value.oid "ab"), ("x", Value.num 3)] (Value.oid "ab") rfl).2.1,
   (normalize_strips_native_id [("_id", Value.oid "ab"), ("x", Value.num 3)] (Value.oid "ab") rfl).1,
   ((normalize_strips_native_id [("_id", Value.oid "ab"), ("x", Value.num 3)] (Value.oid "ab") rfl).2.2.1
      "x" (by decide) (by decide)).trans rfl⟩

/-- C2: with the store available, `get_product` fails with 400 and the
`InvalidId` message on a structurally invalid id; with 404 "Product not
found" on a well-formed but absent id; and the two outcomes carry
different statuses. -/
theorem get_product_invalid_vs_notfound (st : Store) (bad good : String)
    (hbad : isValidObjectId bad = false)
    (hgood : isValidObjectId good = true)
    (habs : find_one "product" [("_id", Value.oid good.toLower)] st = none) :
    get_product (some st) bad = Resp.httpError 400 (invalidIdMsg bad) ∧
    get_product (some st) good = Resp.httpError 404 "Product not found" ∧
    respStatus (get_product (some st) bad) ≠ respStatus (get_product (some st) good) := by
  have h1 : get_product (some st) bad = Resp.httpError 400 (invalidIdMsg bad) := by
    simp [get_product, hbad]
  have h2 : get_product (some st) good = Resp.httpError 404 "Product not found" := by
    simp [get_product, hgood, habs]
  refine ⟨h1, h2, ?_⟩
  rw [h1, h2]
  simp [respStatus]

/-- C2 witness: `"zzz"` is malformed, the all-zero 24-hex id is well-formed
and absent from the empty store. -/
theorem get_product_invalid_vs_notfound_witness :
    get_product (some emptyStore) "zzz" = Resp.httpError 400 (invalidIdMsg "zzz") ∧
    get_product (some emptyStore) "000000000000000000000000"
      = Resp.httpError 404 "Product not found" :=
  ⟨(get_product_invalid_vs_notfound emptyStore "zzz" "000000000000000000000000"
      (by decide) (by decide) rfl).1,
   (get_product_invalid_vs_notfound emptyStore "zzz" "000000000000000000000000"
      (by decide) (by decide) rfl).2.1⟩

/-- C5: an order payload containing an item with quantity below 1 is
rejected by the pydantic validation (`Field(ge=1)`) before the handler
body runs: the endpoint returns a 422 and the store is returned
unchanged — no document is written. -/
theorem order_zero_quantity_rejected (db : Option Store) (o : OrderPayload)
    (it : OrderItem) (hmem : it ∈ o.items) (hq : it.quantity < 1) :
    create_order_endpoint db o
      = (db, Resp.httpError 422 "value_error: payload validation failed") := by
  have hall : o.items.all orderItemValid = false := by
    rw [List.all_eq_false]
    refine ⟨it, hmem, ?_⟩
    simp only [orderItemValid, decide_eq_true_eq]
    omega
  have hvalid : orderValid o = false := by
    simp [orderValid, hall]
  simp [create_order_endpoint, hvalid]

/-- C5 witness: a payload with a single item of quantity 0, against the
empty store. -/
theorem order_zero_quantity_rejected_witness :
    create_order_endpoint (some emptyStore)
        ⟨"n", "a@b.com", "addr", "city", "country", [⟨"p1", 0⟩], none⟩
      = (some emptyStore, Resp.httpError 422 "value_error: payload validation failed") :=
  order_zero_quantity_rejected (some emptyStore)
    ⟨"n", "a@b.com", "addr", "city", "country", [⟨"p1", 0⟩], none⟩
    ⟨"p1", 0⟩ (by decide) (by decide)

/-- C7 counterexample: `get_product` maps the store-unavailable failure
and the malformed-identifier failure to the same client-visible status,
400 — they are not distinct statuses. -/
theorem get_product_status_collision :
    respStatus (get_product none "zzz") = some 400 ∧
    respStatus (get_product (some emptyStore) "zzz") = some 400 ∧
    respStatus (get_product none "zzz") = respStatus (get_product (some emptyStore) "zzz") := by
  refine ⟨rfl, ?_, ?_⟩ <;> decide

/-- C7 amended: `get_product` maps a well-formed-but-absent id to status
404, distinct from both the malformed-id and the store-unavailable
failures; those two both surface as status 400 and are distinguished only
by their detail messages. -/
theorem error_status_mapping (st : Store) (bad good : String)
    (hbad : isValidObjectId bad = false)
    (hgood : isValidObjectId good = true)
    (habs : find_one "product" [("_id", Value.oid good.toLower)] st = none) :
    get_product none bad = Resp.httpError 400 "Database not available" ∧
    get_product (some st) bad = Resp.httpError 400 (invalidIdMsg bad) ∧
    invalidIdMsg bad ≠ "Database not available" ∧
    get_product (some st) good = Resp.httpError 404 "Product not found" ∧
    respStatus (get_product (some st) good) ≠ respStatus (get_product (some st) bad) := by
  have h1 : get_product (some st) bad = Resp.httpError 400 (invalidIdMsg bad) := by
    simp [get_product, hbad]
  have h2 : get_product (some st) good = Resp.httpError 404 "Product not found" := by
    simp [get_product, hgood, habs]
  refine ⟨rfl, h1, ?_, h2, ?_⟩
  · intro hmsg
    have hlen := congrArg String.length hmsg
    have hsuf : (" is not a valid ObjectId, it must be a 12-byte input or a 24-character hex string").length = 81 := by
      decide
    have hdb : ("Database not available").length = 22 := by decide
    rw [invalidIdMsg, String.length_append, hsuf, hdb] at hlen
    omega
  · rw [h1, h2]
    simp [respStatus]

/-- C7 amended witness: concrete malformed id `"zzz"` and absent id of 24
zeros against the empty store. -/
theorem error_status_mapping_witness :
    get_product none "zzz" = Resp.httpError 400 "Database not available" ∧
    invalidIdMsg "zzz" ≠ "Database not available" ∧
    get_product (some emptyStore) "000000000000000000000000"
      = Resp.httpError 404 "Product not found" :=
  ⟨(error_status_mapping emptyStore "zzz" "000000000000000000000000"
      (by decide) (by decide) rfl).1,
   (error_status_mapping emptyStore "zzz" "000000000000000000000000"
      (by decide) (by decide) rfl).2.2.1,
   (error_status_mapping emptyStore "zzz" "000000000000000000000000"
      (by decide) (by decide) rfl).2.2.2.1⟩

/-- C1: for a syntactically valid email not yet subscribed, the first
signup inserts exactly one document and answers `subscribed` with the
fresh id; the second signup with the same email writes nothing, answers
`already_subscribed`, and the collection has grown by exactly one across
both calls. -/
theorem newsletter_signup_twice (st : Store) (e : String)
    (_he : isEmail e = true)
    (h0 : find_one "newsletter" [("email", Value.str e)] st = none) :
    (signup_newsletter (some st) e).2 = Resp.ok (SignupOk.subscribed (idString st.nextId)) ∧
    (signup_newsletter (some st) e).1
      = some (create_document "newsletter" [("email", Value.str e)] st).2 ∧
    collOf (create_document "newsletter" [("email", Value.str e)] st).2 "newsletter"
      = collOf st "newsletter"
        ++ [[("_id", Value.oid (idString st.nextId)), ("email", Value.str e)]] ∧
    signup_newsletter (signup_newsletter (some st) e).1 e
      = ((signup_newsletter (some st) e).1, Resp.ok SignupOk.already_subscribed) ∧
    (collOf (create_document "newsletter" [("email", Value.str e)] st).2 "newsletter").length
      = (collOf st "newsletter").length + 1 := by
  have hs : signup_newsletter (some st) e
      = (some (create_document "newsletter" [("email", Value.str e)] st).2,
         Resp.ok (SignupOk.subscribed (idString st.nextId))) := by
    simp [signup_newsletter, h0, create_document]
  have hcoll := collOf_create_self "newsletter" [("email", Value.str e)] st
  have hfind := find_one_create_newsletter st e e h0
  rw [if_pos rfl] at hfind
  refine ⟨by rw [hs], by rw [hs], hcoll, ?_, by rw [hcoll]; simp⟩
  rw [hs]
  simp [signup_newsletter, hfind]

/-- C1 witness: the email `a@b.com` against the empty store. -/
theorem newsletter_signup_twice_witness :
    (signup_newsletter (some emptyStore) "a@b.com").2
      = Resp.ok (SignupOk.subscribed (idString 0)) ∧
    signup_newsletter (signup_newsletter (some emptyStore) "a@b.com").1 "a@b.com"
      = ((signup_newsletter (some emptyStore) "a@b.com").1,
         Resp.ok SignupOk.already_subscribed) :=
  ⟨(newsletter_signup_twice emptyStore "a@b.com" (by decide) rfl).1,
   (newsletter_signup_twice emptyStore "a@b.com" (by decide) rfl).2.2.2.1⟩

/-- C10: duplicate suppression is exact string equality on the stored
email: two signups with different email strings (e.g. differing only in
the case of the local part) both insert, each with its own fresh id, and
the collection grows by two. -/
theorem newsletter_exact_match (st : Store) (e1 e2 : String)
    (hne : e1 ≠ e2)
    (h1 : find_one "newsletter" [("email", Value.str e1)] st = none)
    (h2 : find_one "newsletter" [("email", Value.str e2)] st = none) :
    (∀ d : Doc, matchesFilter [("email", Value.str e1)] d = true
      ↔ lookupBy "email" d = some (Value.str e1)) ∧
    (signup_newsletter (some st) e1).2
      = Resp.ok (SignupOk.subscribed (idString st.nextId)) ∧
    signup_newsletter (signup_newsletter (some st) e1).1 e2
      = (some (create_document "newsletter" [("email", Value.str e2)]
            (create_document "newsletter" [("email", Value.str e1)] st).2).2,
         Resp.ok (SignupOk.subscribed (idString (st.nextId + 1)))) ∧
    (collOf (create_document "newsletter" [("email", Value.str e2)]
        (create_document "newsletter" [("email", Value.str e1)] st).2).2 "newsletter").length
      = (collOf st "newsletter").length + 2 := by
  have hs1 : signup_newsletter (some st) e1
      = (some (create_document "newsletter" [("email", Value.str e1)] st).2,
         Resp.ok (SignupOk.subscribed (idString st.nextId))) := by
    simp [signup_newsletter, h1, create_document]
  have hfind := find_one_create_newsletter st e2 e1 h2
  rw [if_neg hne] at hfind
  have hcoll1 := collOf_create_self "newsletter" [("email", Value.str e1)] st
  have hcoll2 := collOf_create_self "newsletter" [("email", Value.str e2)]
    (create_document "newsletter" [("email", Value.str e1)] st).2
  refine ⟨?_, by rw [hs1], ?_, ?_⟩
  · intro d
    rw [matchesFilter_email]
    simp
  · rw [hs1]
    simp only [signup_newsletter, hfind]
    rfl
  · rw [hcoll2, hcoll1]
    simp

/-- C10 witness: `Alice@example.com` and `alice@example.com` (same
address up to local-part case) both subscribe against the empty store. -/
theorem newsletter_exact_match_witness :
    (signup_newsletter (some emptyStore) "Alice@example.com").2
      = Resp.ok (SignupOk.subscribed (idString 0)) ∧
    (signup_newsletter
        (signup_newsletter (some emptyStore) "Alice@example.com").1
        "alice@example.com").2
      = Resp.ok (SignupOk.subscribed (idString 1)) :=
  ⟨(newsletter_exact_match emptyStore "Alice@example.com" "alice@example.com"
      (by decide) rfl rfl).2.1,
   by
    rw [(newsletter_exact_match emptyStore "Alice@example.com" "alice@example.com"
      (by decide) rfl rfl).2.2.1]
    rfl⟩

/-- C3: the seeder is idempotent — if the product collection already holds
at least one document it is a no-op (the store, and with it the product
count, is unchanged), and running it twice from any state leaves the same
product count as running it once. -/
theorem seeder_idempotent (st : Store) (db : Option Store)
    (h : 1 ≤ count_documents "product" [] st) :
    seed_products_if_empty (some st) = some st ∧
    productCount (seed_products_if_empty (seed_products_if_empty db))
      = productCount (seed_products_if_empty db) := by
  have hseed : ∀ s : Store, seed_products_if_empty (some s)
      = if 0 < count_documents "product" [] s then some s
        else some (insertAll sample_products s) := fun _ => rfl
  constructor
  · rw [hseed, if_pos (show 0 < count_documents "product" [] st from h)]
  · cases db with
    | none => rfl
    | some s =>
      by_cases hc : 0 < count_documents "product" [] s
      · rw [hseed, if_pos hc, hseed, if_pos hc]
      · have hz : count_documents "product" [] s = 0 := Nat.eq_zero_of_not_pos hc
        have hnil : collOf s "product" = [] := count_zero_collOf_nil hz
        have hlen := (collOf_insertAll sample_products s).1
        rw [hnil] at hlen
        have hpos : 0 < count_documents "product" [] (insertAll sample_products s) := by
          rw [count_documents_eq_length, hlen]
          simp [seededDocs_length, sample_products]
        rw [hseed, if_neg hc, hseed, if_pos hpos]

/-- C3 witness: a store holding one product is untouched by the seeder,
and seeding the empty store twice gives the same count as seeding once. -/
theorem seeder_idempotent_witness :
    seed_products_if_empty (some (Store.mk [("product", [[("title", Value.str "t")]])] 5))
      = some (Store.mk [("product", [[("title", Value.str "t")]])] 5) ∧
    productCount (seed_products_if_empty (seed_products_if_empty (some emptyStore)))
      = productCount (seed_products_if_empty (some emptyStore)) :=
  ⟨(seeder_idempotent (Store.mk [("product", [[("title", Value.str "t")]])] 5)
      (some emptyStore) (by decide)).1,
   (seeder_idempotent (Store.mk [("product", [[("title", Value.str "t")]])] 5)
      (some emptyStore) (by decide)).2⟩

/-- C8: with the store available and the product collection empty, the
seeder inserts exactly the four fixed baseline products, one
`create_document` call each (four consecutive fresh ids), in the order
they are listed. -/
theorem seeder_baseline (st : Store)
    (h : count_documents "product" [] st = 0) :
    seed_products_if_empty (some st) = some (insertAll sample_products st) ∧
    collOf (insertAll sample_products st) "product" = seededDocs st.nextId sample_products ∧
    sample_products.length = 4 ∧
    (seededDocs st.nextId sample_products).length = 4 ∧
    (insertAll sample_products st).nextId = st.nextId + 4 := by
  have hnil : collOf st "product" = [] := count_zero_collOf_nil h
  have hins := collOf_insertAll sample_products st
  have hseed : seed_products_if_empty (some st)
      = if 0 < count_documents "product" [] st then some st
        else some (insertAll sample_products st) := rfl
  refine ⟨?_, ?_, rfl, ?_, ?_⟩
  · rw [hseed, if_neg (by omega)]
  · rw [hins.1, hnil]
    rfl
  · rw [seededDocs_length, show sample_products.length = 4 from rfl]
  · rw [hins.2, show sample_products.length = 4 from rfl]

/-- C8 witness: the empty store is seeded with the four baseline products
and its id counter advances by four. -/
theorem seeder_baseline_witness :
    seed_products_if_empty (some emptyStore) = some (insertAll sample_products emptyStore) ∧
    collOf (insertAll sample_products emptyStore) "product" = seededDocs 0 sample_products ∧
    (insertAll sample_products emptyStore).nextId = 4 :=
  ⟨(seeder_baseline emptyStore rfl).1,
   (seeder_baseline emptyStore rfl).2.1,
   (seeder_baseline emptyStore rfl).2.2.2.2⟩

/-- C6: whatever the failure behavior of the store operations during
seeding (count failing, any subset of the inserts failing), and whatever
the database state (including unavailable, where the seeder is a no-op),
the seeder always returns normally — no exception propagates to the
startup machinery. -/
theorem seeder_never_propagates (countOk : Bool) (insOk : Nat → Bool) (db : Option Store) :
    (∃ r, seed_with_failures countOk insOk db = Except.ok r) ∧
    seed_with_failures countOk insOk none = Except.ok none := by
  refine ⟨?_, rfl⟩
  cases db with
  | none => exact ⟨none, rfl⟩
  | some st =>
    cases hb : seedBody countOk insOk st with
    | ok st2 => exact ⟨some st2, by simp [seed_with_failures, hb]⟩
    | error st2 => exact ⟨some st2, by simp [seed_with_failures, hb]⟩

/-- C9: `to_str_id` never mutates its argument: run over an explicit heap
of dict objects, the caller's dict is unchanged in the resulting heap
(the result lives in a fresh cell and equals the pure `to_str_id` of the
input), and an absent (`None`) or empty input is returned as is. -/
theorem to_str_id_frame (h : Heap) (a : Nat) :
    (heapGet h a = none → to_str_id_heap h a = (h, a)) ∧
    (∀ doc, heapGet h a = some doc →
      heapGet (to_str_id_heap h a).1 a = some doc ∧
      heapGet (to_str_id_heap h a).1 (to_str_id_heap h a).2 = some (to_str_id doc) ∧
      (doc = [] → to_str_id_heap h a = (h, a))) := by
  cases hga : heapGet h a with
  | none =>
    refine ⟨fun _ => ?_, fun doc hd => ?_⟩
    · simp [to_str_id_heap, hga]
    · cases hd
  | some doc0 =>
    have hlt : a < h.cells.length := cellsGet_lt_length hga
    refine ⟨fun hn => ?_, fun doc hd => ?_⟩
    · cases hn
    · injection hd with hd
      subst hd
      by_cases hemp : doc0 = []

      · subst hemp
        have hth : to_str_id_heap h a = (h, a) := by
          simp [to_str_id_heap, hga]
        rw [hth]
        exact ⟨hga, by rw [hga]; rfl, fun _ => rfl⟩
      · cases hl : lookupBy "_id" doc0 with
        | none =>
          have hth : to_str_id_heap h a = (⟨h.cells ++ [doc0]⟩, h.cells.length) := by
            simp [to_str_id_heap, hga, hemp, heapAlloc, hl]
          rw [hth]
          refine ⟨?_, ?_, fun hc => absurd hc hemp⟩
          · show cellsGet (h.cells ++ [doc0]) a = some doc0
            rw [cellsGet_append_left _ hlt]
            exact hga
          · show cellsGet (h.cells ++ [doc0]) h.cells.length = some (to_str_id doc0)
            rw [cellsGet_append_length]
            simp [to_str_id, hemp, hl]
        | some v =>
          have hth : to_str_id_heap h a
              = (⟨cellsSet (cellsSet (h.cells ++ [doc0]) h.cells.length (eraseBy "_id" doc0))
                    h.cells.length
                    (setBy "id" (Value.str (pyStr v)) (eraseBy "_id" doc0))⟩,
                 h.cells.length) := by
            simp [to_str_id_heap, hga, hemp, heapAlloc, hl, heapSet]
          rw [hth]
          have hanb : a ≠ h.cells.length := Nat.ne_of_lt hlt
          refine ⟨?_, ?_, fun hc => absurd hc hemp⟩
          · show cellsGet (cellsSet (cellsSet (h.cells ++ [doc0]) h.cells.length
                (eraseBy "_id" doc0)) h.cells.length
                (setBy "id" (Value.str (pyStr v)) (eraseBy "_id" doc0))) a = some doc0
            rw [cellsGet_set_ne hanb, cellsGet_set_ne hanb, cellsGet_append_left _ hlt]
            exact hga
          · show cellsGet (cellsSet (cellsSet (h.cells ++ [doc0]) h.cells.length
                (eraseBy "_id" doc0)) h.cells.length
                (setBy "id" (Value.str (pyStr v)) (eraseBy "_id" doc0))) h.cells.length
              = some (to_str_id doc0)
            have hblt : h.cells.length < (cellsSet (h.cells ++ [doc0]) h.cells.length
                (eraseBy "_id" doc0)).length := by
              rw [cellsSet_length]
              simp
            rw [cellsGet_set_self hblt]
            simp [to_str_id, hemp, hl]

/-- C9 witness: a heap with a single dict holding an `_id`; after
normalization the original cell still holds the original dict, the result
cell holds the normalized copy, and a dangling address is untouched. -/
theorem to_str_id_frame_witness :
    heapGet (to_str_id_heap ⟨[[("_id", Value.oid "ab")]]⟩ 0).1 0
      = some [("_id", Value.oid "ab")] ∧
    heapGet (to_str_id_heap ⟨[[("_id", Value.oid "ab")]]⟩ 0).1
        (to_str_id_heap ⟨[[("_id", Value.oid "ab")]]⟩ 0).2
      = some (to_str_id [("_id", Value.oid "ab")]) ∧
    to_str_id_heap ⟨[[("_id", Value.oid "ab")]]⟩ 7 = (⟨[[("_id", Value.oid "ab")]]⟩, 7) :=
  ⟨((to_str_id_frame ⟨[[("_id", Value.oid "ab")]]⟩ 0).2 [("_id", Value.oid "ab")] rfl).1,
   ((to_str_id_frame ⟨[[("_id", Value.oid "ab")]]⟩ 0).2 [("_id", Value.oid "ab")] rfl).2.1,
   (to_str_id_frame ⟨[[("_id", Value.oid "ab")]]⟩ 7).1 rfl⟩

end BeautyDropship
